import Mathlib

/-!
Verification development for drivers/cpufreq/cpu-boost.c: a CPU-frequency
boost coordinator.  The coordinator state (per-cpu input_boost_min floors,
the max_boost_active flag, the last_input_time timestamp, the two work
items and the st_cpu_bias flag) is embedded as an explicit record, and
each handler of the C file becomes a pure state transformer.  Time is
modelled in milliseconds: msecs_to_jiffies is the identity, so jiffies
values and millisecond durations live on the same scale.  The number of
possible cpus is a parameter nr; for_each_possible_cpu writes exactly the
indices below nr.  Calls to cpufreq_update_policy for the online cpus are
recorded in an append-only log (the policy_updates field), which makes the
policy re-evaluation fan-out observable.
-/

set_option autoImplicit false

namespace CpuBoost

/-- Compile-time constants of cpu-boost.c. -/
def IB_FREQ_MIN : Nat := 1113600

/-- High-tier floor, written to cpus with index at least 4 on weak activation. -/
def IB_FREQ_MAX : Nat := 1113600

/-- Weak-boost duration in ms. -/
def IB_DURATION : Nat := 150

/-- Staleness window for mdss_boost_kick, in ms. -/
def MDSS_TIMEOUT : Nat := 5000

/-- UINT_MAX on a 32-bit unsigned int: the unbounded-boost sentinel. -/
def UINT_MAX : Nat := 4294967295

/-- The CPUFREQ_ADJUST policy-notifier event (value 0 in the kernel headers). -/
def CPUFREQ_ADJUST : Nat := 0

/-- Time is modelled in milliseconds, so the conversion is the identity. -/
def msecs_to_jiffies (ms : Nat) : Nat := ms

/-- The kernel time_after(a, b) predicate on non-wrapping timestamps. -/
def time_after (a b : Nat) : Bool := decide (b < a)

/-- The coordinator state of cpu-boost.c: the per-cpu sync_info floors
(input_boost_min, indexed by cpu number), the global flags and timestamp,
the pending/scheduled status of the two work items, and a log of the
online-cpu lists passed to the policy re-evaluation fan-out. -/
structure BoostState where
  input_boost_min : Nat → Nat
  max_boost_active : Bool
  last_input_time : Nat
  input_boost_work_pending : Bool
  input_boost_rem_pending : Bool
  input_boost_rem_deadline : Nat
  st_cpu_bias : Bool
  policy_updates : List (List Nat)

/-- The state right after cpu_boost_init: zero floors, cleared flags
(static and zero-initialized globals), nothing pending. -/
def initState : BoostState :=
  { input_boost_min := fun _ => 0
    max_boost_active := false
    last_input_time := 0
    input_boost_work_pending := false
    input_boost_rem_pending := false
    input_boost_rem_deadline := 0
    st_cpu_bias := false
    policy_updates := [] }

/-- update_policy_online: call cpufreq_update_policy for every online cpu.
The call is recorded by appending the current online-cpu list to the log. -/
def update_policy_online (online : List Nat) (s : BoostState) : BoostState :=
  { s with policy_updates := s.policy_updates ++ [online] }

/-- do_input_boost, the input_boost_work handler, run at time now.  Running
the handler consumes the pending work bit.  If max_boost_active it returns
at once; otherwise it cancels input_boost_rem, writes the two weak tiers
into input_boost_min for every possible cpu (IB_FREQ_MIN below index 4,
IB_FREQ_MAX above), re-evaluates policy for the online cpus and schedules
input_boost_rem after IB_DURATION ms. -/
def do_input_boost (nr now : Nat) (online : List Nat) (s : BoostState) : BoostState :=
  if s.max_boost_active then
    { s with input_boost_work_pending := false }
  else
    { update_policy_online online
        { s with
          input_boost_work_pending := false
          input_boost_rem_pending := false
          input_boost_min := fun i =>
            if i < nr then (if i < 4 then IB_FREQ_MIN else IB_FREQ_MAX)
            else s.input_boost_min i } with
      input_boost_rem_pending := true
      input_boost_rem_deadline := now + msecs_to_jiffies IB_DURATION }

/-- do_input_boost_rem, the delayed-work expiry handler.  Running it
consumes the scheduled timer; it clears st_cpu_bias (the source writes
false only when the flag is set, which nets to false), resets
input_boost_min to 0 for every possible cpu, re-evaluates policy for the
online cpus, and clears max_boost_active (again written only when set). -/
def do_input_boost_rem (nr : Nat) (online : List Nat) (s : BoostState) : BoostState :=
  { update_policy_online online
      { s with
        input_boost_rem_pending := false
        st_cpu_bias := false
        input_boost_min := fun i => if i < nr then 0 else s.input_boost_min i } with
    max_boost_active := false }

/-- do_input_boost_max: cancel input_boost_rem, write UINT_MAX into
input_boost_min for every possible cpu, re-evaluate policy for the online
cpus, reschedule input_boost_rem after duration_ms, and set
max_boost_active.  No suppression branch exists. -/
def do_input_boost_max (nr now duration_ms : Nat) (online : List Nat)
    (s : BoostState) : BoostState :=
  { update_policy_online online
      { s with
        input_boost_rem_pending := false
        input_boost_min := fun i => if i < nr then UINT_MAX else s.input_boost_min i } with
    input_boost_rem_pending := true
    input_boost_rem_deadline := now + msecs_to_jiffies duration_ms
    max_boost_active := true }

/-- input_boost_max_kick: set st_cpu_bias (the source writes true only
when the flag is clear, which nets to true) and run do_input_boost_max. -/
def input_boost_max_kick (nr now duration_ms : Nat) (online : List Nat)
    (s : BoostState) : BoostState :=
  do_input_boost_max nr now duration_ms online { s with st_cpu_bias := true }

/-- mdss_boost_kick at time now: if input_boost_work is already pending,
or now is after last_input_time + MDSS_TIMEOUT, return without any write;
otherwise set st_cpu_bias and queue input_boost_work. -/
def mdss_boost_kick (now : Nat) (s : BoostState) : BoostState :=
  if s.input_boost_work_pending
      || time_after now (s.last_input_time + msecs_to_jiffies MDSS_TIMEOUT) then
    s
  else
    { s with st_cpu_bias := true, input_boost_work_pending := true }

/-- cpuboost_input_event at time now: record last_input_time := now first,
then return if input_boost_work is already pending, otherwise set
st_cpu_bias and queue input_boost_work. -/
def cpuboost_input_event (now : Nat) (s : BoostState) : BoostState :=
  if s.input_boost_work_pending then
    { s with last_input_time := now }
  else
    { s with last_input_time := now, st_cpu_bias := true
             input_boost_work_pending := true }

/-- cpufreq_verify_within_limits(policy, lo, hi) of the cpufreq framework
headers (an external collaborator of this driver): clamp the proposed
(pmin, pmax) pair into [lo, hi], then force pmin at most pmax. -/
def cpufreq_verify_within_limits (pmin pmax lo hi : Nat) : Nat × Nat :=
  let pmin := if pmin < lo then lo else pmin
  let pmax := if pmax < lo then lo else pmax
  let pmin := if hi < pmin then hi else pmin
  let pmax := if hi < pmax then hi else pmax
  let pmin := if pmax < pmin then pmax else pmin
  (pmin, pmax)

/-- boost_adjust_notify: the CPUFREQ policy-notifier callback for the cpu
whose floor is floors cpu, invoked with event val and the proposed limits
(pmin, pmax).  Only CPUFREQ_ADJUST is handled: with a zero floor the
limits pass through; otherwise the effective floor is
min(floor = UINT_MAX ? pmax : floor, pmax) and the limits are run through
cpufreq_verify_within_limits with lower bound that floor and upper bound
UINT_MAX.  The function returns the adjusted (min, max) pair. -/
def boost_adjust_notify (floors : Nat → Nat) (val cpu pmin pmax : Nat) : Nat × Nat :=
  let ib_min := floors cpu
  if val = CPUFREQ_ADJUST then
    if ib_min = 0 then (pmin, pmax)
    else
      let ib_min := min (if floors cpu = UINT_MAX then pmax else floors cpu) pmax
      cpufreq_verify_within_limits pmin pmax ib_min UINT_MAX
  else
    (pmin, pmax)

/-- The external outcomes cpu_boost_init depends on: whether
alloc_workqueue succeeds and the return value of input_register_handler
(0 on success, a negative errno on failure). -/
structure InitEnv where
  wq_ok : Bool
  input_reg_result : Int

/-- What a run of cpu_boost_init leaves behind: its return value, whether
the workqueue exists, and which registrations are in effect afterwards. -/
structure InitResult where
  ret : Int
  wq_created : Bool
  notifier_registered : Bool
  input_handler_registered : Bool

/-- EFAULT errno value. -/
def EFAULT : Int := 14

/-- cpu_boost_init: allocate the workqueue (returning -EFAULT if that
fails, with nothing registered), set up the work items and the per-cpu
ids (pure setup with no failure path, elided from the result record),
register the cpufreq policy notifier (its return value is ignored by the
source, so the registration is in effect from here on), then register the
input handler and return that call's result.  Nothing is unregistered on
the failure path. -/
def cpu_boost_init (env : InitEnv) : InitResult :=
  if env.wq_ok = false then
    { ret := -EFAULT, wq_created := false
      notifier_registered := false, input_handler_registered := false }
  else
    { ret := env.input_reg_result
      wq_created := true
      notifier_registered := true
      input_handler_registered := decide (env.input_reg_result = 0) }

/-- One atomic step of the three boost-state operations named by the
coordinator invariant: the weak activation handler, the strong activation,
and the expiry handler, each at an arbitrary time and online-cpu list. -/
inductive StepW (nr : Nat) : BoostState → BoostState → Prop where
  | boost : ∀ s now online, StepW nr s (do_input_boost nr now online s)
  | boost_max : ∀ s now duration_ms online,
      StepW nr s (do_input_boost_max nr now duration_ms online s)
  | boost_rem : ∀ s online, StepW nr s (do_input_boost_rem nr online s)

/-- States reachable from the initial state by StepW steps. -/
inductive ReachW (nr : Nat) : BoostState → Prop where
  | init : ReachW nr initState
  | step : ∀ s t, ReachW nr s → StepW nr s t → ReachW nr t

/-- One atomic step of any state-changing entry point of the driver:
the two work handlers, the strong boost and its kick wrapper, the input
event, and the mdss kick. -/
inductive Step (nr : Nat) : BoostState → BoostState → Prop where
  | boost : ∀ s now online, Step nr s (do_input_boost nr now online s)
  | boost_max : ∀ s now duration_ms online,
      Step nr s (do_input_boost_max nr now duration_ms online s)
  | boost_rem : ∀ s online, Step nr s (do_input_boost_rem nr online s)
  | max_kick : ∀ s now duration_ms online,
      Step nr s (input_boost_max_kick nr now duration_ms online s)
  | input_event : ∀ s now, Step nr s (cpuboost_input_event now s)
  | kick : ∀ s now, Step nr s (mdss_boost_kick now s)

/-- States reachable from the initial state by any driver operation. -/
inductive Reach (nr : Nat) : BoostState → Prop where
  | init : Reach nr initState
  | step : ∀ s t, Reach nr s → Step nr s t → Reach nr t

/-- Closed form of cpufreq_verify_within_limits when the lower bound is at
most pmax and both proposed limits are at most the upper bound: the
maximum passes through and the minimum is raised to lo, capped at pmax. -/
theorem cpufreq_verify_within_limits_eq (pmin pmax lo hi : Nat)
    (h1 : lo ≤ pmax) (h2 : pmin ≤ hi) (h3 : pmax ≤ hi) :
    cpufreq_verify_within_limits pmin pmax lo hi = (min (max pmin lo) pmax, pmax) := by
  simp only [cpufreq_verify_within_limits]
  split_ifs <;> simp [Prod.ext_iff] <;> omega

/-- Closed form of the hook on a CPUFREQ_ADJUST event with a non-zero
floor: the minimum is raised to the effective floor, capped at pmax. -/
theorem boost_adjust_notify_eq_of_ne (floors : Nat → Nat) (cpu pmin pmax : Nat)
    (hmin : pmin ≤ UINT_MAX) (hmax : pmax ≤ UINT_MAX) (hne : floors cpu ≠ 0) :
    boost_adjust_notify floors CPUFREQ_ADJUST cpu pmin pmax =
      (min (max pmin (min (if floors cpu = UINT_MAX then pmax else floors cpu) pmax)) pmax,
        pmax) := by
  simp only [boost_adjust_notify, if_pos rfl, if_neg hne]
  exact cpufreq_verify_within_limits_eq pmin pmax _ UINT_MAX (min_le_right _ _) hmin hmax

/-- C1: on a CPUFREQ_ADJUST event, a zero boost floor leaves the proposed
limits unchanged, and a non-zero floor raises the proposed minimum to
min(floor = UINT_MAX ? max : floor, max), capped at the proposed maximum;
in particular floor 0 maps (300000, 2000000) to itself and floor 1113600
maps it to (1113600, 2000000). -/
theorem boost_adjust_notify_adjust_spec (floors : Nat → Nat) (cpu pmin pmax : Nat)
    (hmin : pmin ≤ UINT_MAX) (hmax : pmax ≤ UINT_MAX) :
    (floors cpu = 0 →
      boost_adjust_notify floors CPUFREQ_ADJUST cpu pmin pmax = (pmin, pmax)) ∧
    (floors cpu ≠ 0 →
      boost_adjust_notify floors CPUFREQ_ADJUST cpu pmin pmax =
        (min (max pmin (min (if floors cpu = UINT_MAX then pmax else floors cpu) pmax)) pmax,
          pmax)) ∧
    boost_adjust_notify (fun _ => 0) CPUFREQ_ADJUST 0 300000 2000000 = (300000, 2000000) ∧
    boost_adjust_notify (fun _ => 1113600) CPUFREQ_ADJUST 0 300000 2000000 =
      (1113600, 2000000) := by
  exact ⟨fun h0 => by simp [boost_adjust_notify, h0],
    fun hne => boost_adjust_notify_eq_of_ne floors cpu pmin pmax hmin hmax hne,
    by rfl, by rfl⟩

/-- C1 witness: the hook evaluated at the second concrete example of the
claim, with the hypotheses discharged. -/
theorem boost_adjust_notify_adjust_spec_witness :
    boost_adjust_notify (fun _ => 1113600) CPUFREQ_ADJUST 0 300000 2000000 =
      (1113600, 2000000) :=
  (boost_adjust_notify_adjust_spec (fun _ => 0) 0 300000 2000000
    (by decide) (by decide)).2.2.2

/-- C10: the hook never modifies the proposed maximum, it never lowers a
consistent proposed minimum, and on any event other than CPUFREQ_ADJUST it
returns both limits unchanged. -/
theorem boost_adjust_notify_frame (floors : Nat → Nat) (val cpu pmin pmax : Nat)
    (hmin : pmin ≤ UINT_MAX) (hmax : pmax ≤ UINT_MAX) :
    (boost_adjust_notify floors val cpu pmin pmax).2 = pmax ∧
    (pmin ≤ pmax → pmin ≤ (boost_adjust_notify floors val cpu pmin pmax).1) ∧
    (val ≠ CPUFREQ_ADJUST → boost_adjust_notify floors val cpu pmin pmax = (pmin, pmax)) := by
  by_cases hval : val = CPUFREQ_ADJUST
  · subst hval
    by_cases h0 : floors cpu = 0
    · simp [boost_adjust_notify, h0]
    · rw [boost_adjust_notify_eq_of_ne floors cpu pmin pmax hmin hmax h0]
      refine ⟨rfl, fun hle => ?_, fun hc => absurd rfl hc⟩
      simp only
      omega
  · simp [boost_adjust_notify, hval]

/-- C10 witness: a non-ADJUST event (value 1, CPUFREQ_START territory)
leaves the concrete proposal untouched. -/
theorem boost_adjust_notify_frame_witness :
    boost_adjust_notify (fun _ => 1113600) 1 0 300000 2000000 = (300000, 2000000) :=
  (boost_adjust_notify_frame (fun _ => 1113600) 1 0 300000 2000000
    (by decide) (by decide)).2.2 (by decide)

/-- C3: from any prior state, a strong boost of duration d (directly or
through its kick wrapper) always takes effect: the expiry timer is
rescheduled to now + d (any previously pending one replaced), every
possible cpu's floor becomes UINT_MAX, policy is re-evaluated for the
online cpus, and max_boost_active becomes true; no prior weak activation
or active boost suppresses it. -/
theorem do_input_boost_max_spec (nr now duration_ms : Nat) (online : List Nat)
    (s : BoostState) :
    ((do_input_boost_max nr now duration_ms online s).input_boost_rem_pending = true ∧
      (do_input_boost_max nr now duration_ms online s).input_boost_rem_deadline =
        now + duration_ms ∧
      (∀ i, i < nr → (do_input_boost_max nr now duration_ms online s).input_boost_min i =
        UINT_MAX) ∧
      (do_input_boost_max nr now duration_ms online s).max_boost_active = true ∧
      (do_input_boost_max nr now duration_ms online s).policy_updates =
        s.policy_updates ++ [online]) ∧
    input_boost_max_kick nr now duration_ms online s =
      do_input_boost_max nr now duration_ms online { s with st_cpu_bias := true } := by
  refine ⟨⟨rfl, rfl, fun i hi => ?_, rfl, rfl⟩, rfl⟩
  simp [do_input_boost_max, update_policy_online, hi]

/-- C3 witness: the strong boost applied to a state with a weak boost in
flight (work pending, a weak floor set, timer pending) at nr = 8. -/
theorem do_input_boost_max_spec_witness :
    (do_input_boost_max 8 1000 5000 [0, 1]
        { initState with input_boost_work_pending := true }).input_boost_min 0 =
      UINT_MAX :=
  ((do_input_boost_max_spec 8 1000 5000 [0, 1]
    { initState with input_boost_work_pending := true }).1.2.2.1 0 (by decide))

/-- C7: the expiry handler resets every possible cpu's floor to 0 (not
only the online ones), re-evaluates policy for every online cpu, and
leaves max_boost_active false, whatever boost was in effect before. -/
theorem do_input_boost_rem_spec (nr : Nat) (online : List Nat) (s : BoostState) :
    (∀ i, i < nr → (do_input_boost_rem nr online s).input_boost_min i = 0) ∧
    (do_input_boost_rem nr online s).policy_updates = s.policy_updates ++ [online] ∧
    (do_input_boost_rem nr online s).max_boost_active = false := by
  refine ⟨fun i hi => ?_, rfl, rfl⟩
  simp [do_input_boost_rem, update_policy_online, hi]

/-- C7 witness: expiry after a strong boost at nr = 8 clears cpu 5's
floor, which only the possible-cpu loop (not the online list) reaches. -/
theorem do_input_boost_rem_spec_witness :
    (do_input_boost_rem 8 [0, 1] (do_input_boost_max 8 0 5000 [0, 1] initState)).input_boost_min
        5 = 0 :=
  (do_input_boost_rem_spec 8 [0, 1] (do_input_boost_max 8 0 5000 [0, 1] initState)).1
    5 (by decide)

/-- C6: a kick strictly after last_input_time + 5000 ms is dropped with no
state change; a kick within the window with no activation pending sets
st_cpu_bias and queues the activation work; in particular a kick at
t = 6000 in the initial state (last_input_time = 0) is dropped. -/
theorem mdss_boost_kick_spec (now : Nat) (s : BoostState) :
    (s.last_input_time + MDSS_TIMEOUT < now → mdss_boost_kick now s = s) ∧
    (¬ s.last_input_time + MDSS_TIMEOUT < now → s.input_boost_work_pending = false →
      mdss_boost_kick now s =
        { s with st_cpu_bias := true, input_boost_work_pending := true }) ∧
    mdss_boost_kick 6000 initState = initState := by
  refine ⟨fun hlate => ?_, fun hin hnp => ?_, by rfl⟩
  · simp [mdss_boost_kick, time_after, msecs_to_jiffies, hlate]
  · simp [mdss_boost_kick, time_after, msecs_to_jiffies, hin, hnp]

/-- C6 witness: the stale kick of Scenario D is dropped, and an in-window
kick on the idle initial state queues the activation. -/
theorem mdss_boost_kick_spec_witness :
    mdss_boost_kick 6000 initState = initState ∧
    mdss_boost_kick 100 initState =
      { initState with st_cpu_bias := true, input_boost_work_pending := true } :=
  ⟨(mdss_boost_kick_spec 6000 initState).1 (by decide),
    (mdss_boost_kick_spec 100 initState).2.1 (by decide) rfl⟩

/-- C4 counterexample: an input event that is dropped by the dedup check
(work already pending) still overwrites last_input_time (7 becomes 100),
and a kick that is accepted (work gets queued) does not record the trigger
time (last_input_time stays 0 instead of 3).  Both halves of the claim
fail on the code, because cpuboost_input_event writes the timestamp before
the dedup check and mdss_boost_kick never writes it. -/
theorem last_input_time_claim_false :
    ((cpuboost_input_event 100
        { initState with
            input_boost_work_pending := true
            last_input_time := 7 }).input_boost_work_pending = true ∧
      (cpuboost_input_event 100
        { initState with
            input_boost_work_pending := true
            last_input_time := 7 }).last_input_time ≠ 7) ∧
    ((mdss_boost_kick 3 initState).input_boost_work_pending = true ∧
      (mdss_boost_kick 3 initState).last_input_time ≠ 3) := by
  refine ⟨⟨rfl, by decide⟩, ⟨rfl, by decide⟩⟩

/-- C4 amended: last_input_time records the time of the most recent input
event, accepted or dropped alike (the write precedes the dedup check),
and the kick path never writes it, accepted or not. -/
theorem last_input_time_amended (now : Nat) (s : BoostState) :
    (cpuboost_input_event now s).last_input_time = now ∧
    (mdss_boost_kick now s).last_input_time = s.last_input_time := by
  constructor
  · simp only [cpuboost_input_event]
    split <;> rfl
  · simp only [mdss_boost_kick]
    split <;> rfl

/-- C5 counterexample: with an activation pending, a further input event
is not a complete no-op — last_input_time changes from 0 to 200. -/
theorem weak_dedup_claim_false :
    (cpuboost_input_event 200
        { initState with input_boost_work_pending := true }).last_input_time ≠
      ({ initState with input_boost_work_pending := true } : BoostState).last_input_time := by
  decide

/-- C5 amended: with an activation pending, a further kick changes
nothing at all, and a further input event leaves the floors,
max_boost_active, the expiry scheduling, st_cpu_bias, the policy-update
log and the pending bit unchanged but still overwrites last_input_time. -/
theorem weak_dedup_amended (now : Nat) (s : BoostState)
    (h : s.input_boost_work_pending = true) :
    mdss_boost_kick now s = s ∧
    cpuboost_input_event now s = { s with last_input_time := now } := by
  constructor
  · simp [mdss_boost_kick, h]
  · simp [cpuboost_input_event, h]

/-- C5 amended witness: the two dropped triggers evaluated on a concrete
pending state. -/
theorem weak_dedup_amended_witness :
    mdss_boost_kick 50 { initState with input_boost_work_pending := true } =
      { initState with input_boost_work_pending := true } ∧
    cpuboost_input_event 50 { initState with input_boost_work_pending := true } =
      { initState with input_boost_work_pending := true, last_input_time := 50 } :=
  weak_dedup_amended 50 { initState with input_boost_work_pending := true } rfl

/-- C9 counterexample: when the workqueue succeeds but
input_register_handler fails (say with -12, ENOMEM), cpu_boost_init
returns the failure code yet the cpufreq policy notifier registered just
before remains in effect — the component is left partly set up,
contradicting the no-registration-remains part of the claim. -/
theorem cpu_boost_init_claim_false :
    (cpu_boost_init { wq_ok := true, input_reg_result := -12 }).ret ≠ 0 ∧
    (cpu_boost_init { wq_ok := true, input_reg_result := -12 }).notifier_registered = true := by
  exact ⟨by decide, rfl⟩

/-- C9 amended: if workqueue allocation fails, init returns -EFAULT with
nothing created or registered; if the input-handler registration fails,
init returns that error code and the input handler is not registered, but
the cpufreq policy notifier stays registered. -/
theorem cpu_boost_init_spec (env : InitEnv) :
    (env.wq_ok = false → cpu_boost_init env =
      { ret := -EFAULT, wq_created := false, notifier_registered := false
        input_handler_registered := false }) ∧
    (env.wq_ok = true → env.input_reg_result ≠ 0 →
      (cpu_boost_init env).ret = env.input_reg_result ∧
      (cpu_boost_init env).input_handler_registered = false ∧
      (cpu_boost_init env).notifier_registered = true) := by
  refine ⟨fun h => by simp [cpu_boost_init, h], fun h hr => ?_⟩
  simp [cpu_boost_init, h, hr]

/-- C9 amended witness: both failure modes evaluated concretely. -/
theorem cpu_boost_init_spec_witness :
    cpu_boost_init { wq_ok := false, input_reg_result := 0 } =
      { ret := -EFAULT, wq_created := false, notifier_registered := false
        input_handler_registered := false } ∧
    (cpu_boost_init { wq_ok := true, input_reg_result := -19 }).ret = -19 ∧
    (cpu_boost_init { wq_ok := true, input_reg_result := -19 }).input_handler_registered =
      false ∧
    (cpu_boost_init { wq_ok := true, input_reg_result := -19 }).notifier_registered = true :=
  ⟨(cpu_boost_init_spec { wq_ok := false, input_reg_result := 0 }).1 rfl,
    ((cpu_boost_init_spec { wq_ok := true, input_reg_result := -19 }).2 rfl (by decide)).1,
    ((cpu_boost_init_spec { wq_ok := true, input_reg_result := -19 }).2 rfl (by decide)).2.1,
    ((cpu_boost_init_spec { wq_ok := true, input_reg_result := -19 }).2 rfl (by decide)).2.2⟩

/-- Run lemma: the weak handler under an active strong boost only clears
the pending work bit. -/
theorem do_input_boost_eq_of_max (nr now : Nat) (online : List Nat) (s : BoostState)
    (h : s.max_boost_active = true) :
    do_input_boost nr now online s = { s with input_boost_work_pending := false } := by
  rw [do_input_boost, if_pos h]

/-- Run lemma: the weak handler with no strong boost active, written as a
single record update. -/
theorem do_input_boost_eq_of_not_max (nr now : Nat) (online : List Nat) (s : BoostState)
    (h : s.max_boost_active = false) :
    do_input_boost nr now online s = { s with
      input_boost_work_pending := false
      input_boost_min := fun i =>
        if i < nr then (if i < 4 then IB_FREQ_MIN else IB_FREQ_MAX)
        else s.input_boost_min i
      input_boost_rem_pending := true
      input_boost_rem_deadline := now + msecs_to_jiffies IB_DURATION
      policy_updates := s.policy_updates ++ [online] } := by
  rw [do_input_boost, if_neg (by simp [h])]
  rfl

/-- Run lemma: the strong boost as a single record update. -/
theorem do_input_boost_max_eq (nr now duration_ms : Nat) (online : List Nat)
    (s : BoostState) :
    do_input_boost_max nr now duration_ms online s = { s with
      input_boost_min := fun i => if i < nr then UINT_MAX else s.input_boost_min i
      input_boost_rem_pending := true
      input_boost_rem_deadline := now + msecs_to_jiffies duration_ms
      max_boost_active := true
      policy_updates := s.policy_updates ++ [online] } := rfl

/-- Run lemma: the expiry handler as a single record update. -/
theorem do_input_boost_rem_eq (nr : Nat) (online : List Nat) (s : BoostState) :
    do_input_boost_rem nr online s = { s with
      input_boost_rem_pending := false
      st_cpu_bias := false
      input_boost_min := fun i => if i < nr then 0 else s.input_boost_min i
      max_boost_active := false
      policy_updates := s.policy_updates ++ [online] } := rfl

/-- C2: in every state reachable from the initial idle state by atomic
runs of do_input_boost, do_input_boost_max and do_input_boost_rem (on a
system with at least one cpu), the expiry timer is pending exactly when
some possible cpu has a non-zero floor, and while max_boost_active holds
every possible cpu's floor is the UINT_MAX sentinel. -/
theorem reachW_invariant (nr : Nat) (s : BoostState) (hnr : 0 < nr)
    (h : ReachW nr s) :
    (s.input_boost_rem_pending = true ↔ ∃ i, i < nr ∧ s.input_boost_min i ≠ 0) ∧
    (s.max_boost_active = true → ∀ i, i < nr → s.input_boost_min i = UINT_MAX) := by
  induction h with
  | init =>
    refine ⟨⟨fun hp => ?_, ?_⟩, fun hm => ?_⟩
    · exact absurd hp (by simp [initState])
    · rintro ⟨i, hi, hne⟩
      exact absurd rfl hne
    · exact absurd hm (by simp [initState])
  | step u t hu hstep ih =>
    cases hstep with
    | boost now online =>
      cases hmb : u.max_boost_active with
      | true =>
        rw [do_input_boost_eq_of_max nr now online u hmb]
        simpa using ih
      | false =>
        rw [do_input_boost_eq_of_not_max nr now online u hmb]
        refine ⟨⟨fun _ => ⟨0, hnr, ?_⟩, fun _ => rfl⟩, fun hm => ?_⟩
        · simp [hnr, IB_FREQ_MIN, IB_FREQ_MAX]
        · exact absurd hm (by simp [hmb])
    | boost_max now duration_ms online =>
      rw [do_input_boost_max_eq nr now duration_ms online u]
      refine ⟨⟨fun _ => ⟨0, hnr, ?_⟩, fun _ => rfl⟩, fun _ i hi => ?_⟩
      · simp [hnr, UINT_MAX]
      · simp [hi]
    | boost_rem online =>
      rw [do_input_boost_rem_eq nr online u]
      refine ⟨⟨fun hp => absurd hp (by simp), ?_⟩, fun hm => absurd hm (by simp)⟩
      rintro ⟨i, hi, hne⟩
      exact absurd (by simp [hi]) hne

/-- C2 witness: the invariant applied to the state one weak activation
after the initial state on an 8-cpu system. -/
theorem reachW_invariant_witness :
    ((do_input_boost 8 0 [0, 1] initState).input_boost_rem_pending = true ↔
      ∃ i, i < 8 ∧ (do_input_boost 8 0 [0, 1] initState).input_boost_min i ≠ 0) ∧
    ((do_input_boost 8 0 [0, 1] initState).max_boost_active = true →
      ∀ i, i < 8 → (do_input_boost 8 0 [0, 1] initState).input_boost_min i = UINT_MAX) :=
  reachW_invariant 8 (do_input_boost 8 0 [0, 1] initState) (by decide)
    (ReachW.step initState (do_input_boost 8 0 [0, 1] initState) ReachW.init
      (StepW.boost initState 0 [0, 1]))

/-- C8: in every state reachable by any driver operation, every cpu's
floor is 0, the low tier IB_FREQ_MIN, the high tier IB_FREQ_MAX, or the
UINT_MAX sentinel; no operation writes any other value. -/
theorem reach_floor_values (nr : Nat) (s : BoostState) (h : Reach nr s) (i : Nat) :
    s.input_boost_min i = 0 ∨ s.input_boost_min i = IB_FREQ_MIN ∨
    s.input_boost_min i = IB_FREQ_MAX ∨ s.input_boost_min i = UINT_MAX := by
  induction h with
  | init => exact Or.inl rfl
  | step u t hu hstep ih =>
    cases hstep with
    | boost now online =>
      cases hmb : u.max_boost_active with
      | true =>
        rw [do_input_boost_eq_of_max nr now online u hmb]
        simpa using ih
      | false =>
        rw [do_input_boost_eq_of_not_max nr now online u hmb]
        by_cases hi : i < nr
        · by_cases h4 : i < 4 <;> simp [hi, h4]
        · simpa [hi] using ih
    | boost_max now duration_ms online =>
      rw [do_input_boost_max_eq nr now duration_ms online u]
      by_cases hi : i < nr
      · simp [hi]
      · simpa [hi] using ih
    | boost_rem online =>
      rw [do_input_boost_rem_eq nr online u]
      by_cases hi : i < nr
      · simp [hi]
      · simpa [hi] using ih
    | max_kick now duration_ms online =>
      rw [input_boost_max_kick,
        do_input_boost_max_eq nr now duration_ms online { u with st_cpu_bias := true }]
      by_cases hi : i < nr
      · simp [hi]
      · simpa [hi] using ih
    | input_event now =>
      simp only [cpuboost_input_event]
      split <;> simpa using ih
    | kick now =>
      simp only [mdss_boost_kick]
      split <;> simpa using ih

/-- C8 witness: the floor of cpu 0 one weak activation after the initial
state is one of the four allowed values. -/
theorem reach_floor_values_witness :
    (do_input_boost 8 0 [0, 1] initState).input_boost_min 0 = 0 ∨
    (do_input_boost 8 0 [0, 1] initState).input_boost_min 0 = IB_FREQ_MIN ∨
    (do_input_boost 8 0 [0, 1] initState).input_boost_min 0 = IB_FREQ_MAX ∨
    (do_input_boost 8 0 [0, 1] initState).input_boost_min 0 = UINT_MAX :=
  reach_floor_values 8 (do_input_boost 8 0 [0, 1] initState)
    (Reach.step initState (do_input_boost 8 0 [0, 1] initState) Reach.init
      (Step.boost initState 0 [0, 1])) 0

end CpuBoost
